import Mathlib

/-!
Verification of the format-capability and limits-compatibility core of the
`wgpu-types` crate (file `src/wgpu-types/src/lib.rs`).

The data model (texture formats, aspects, sample types, capability bitsets,
usage bitsets, limits) and the classification functions
(`sample_type`, `guaranteed_format_features`, `aspect_specific_format`,
`block_copy_size`, `block_dimensions`, the serde string codec and
`check_limits_with_fail_fn`) are shallowly embedded below, following the
Rust source arm by arm.  Bitsets are embedded as natural numbers carrying
the exact bit positions declared in the source.
-/

/-! Capability bitset (`Features` in the source): a `u64` bitflags value,
embedded as a natural number with the declared bit positions. -/

namespace Features

def DEPTH32FLOAT_STENCIL8 : Nat := 2 ^ 1
def TEXTURE_COMPRESSION_BC : Nat := 2 ^ 2
def TEXTURE_COMPRESSION_ETC2 : Nat := 2 ^ 4
def TEXTURE_COMPRESSION_ASTC : Nat := 2 ^ 5
def RG11B10UFLOAT_RENDERABLE : Nat := 2 ^ 9
def BGRA8UNORM_STORAGE : Nat := 2 ^ 10
def FLOAT32_FILTERABLE : Nat := 2 ^ 11
def TEXTURE_FORMAT_16BIT_NORM : Nat := 2 ^ 20
def TEXTURE_COMPRESSION_ASTC_HDR : Nat := 2 ^ 21
def TEXTURE_FORMAT_NV12 : Nat := 2 ^ 47

def empty : Nat := 0

/-- `bitflags` membership test: `(self.bits & other.bits) == other.bits`. -/
def contains (self other : Nat) : Bool := self &&& other == other

end Features

/-! Usage bitset (`TextureUsages` in the source), a `u32` bitflags value. -/

namespace TextureUsages

def COPY_SRC : Nat := 2 ^ 0
def COPY_DST : Nat := 2 ^ 1
def TEXTURE_BINDING : Nat := 2 ^ 2
def STORAGE_BINDING : Nat := 2 ^ 3
def RENDER_ATTACHMENT : Nat := 2 ^ 4

/-- `TextureUsages::all()`: the union of every declared flag. -/
def all : Nat := COPY_SRC ||| COPY_DST ||| TEXTURE_BINDING ||| STORAGE_BINDING ||| RENDER_ATTACHMENT

end TextureUsages

/-! Format feature bitset (`TextureFormatFeatureFlags`), a `u32` bitflags value. -/

namespace TextureFormatFeatureFlags

def FILTERABLE : Nat := 2 ^ 0
def MULTISAMPLE_X2 : Nat := 2 ^ 1
def MULTISAMPLE_X4 : Nat := 2 ^ 2
def MULTISAMPLE_X8 : Nat := 2 ^ 3
def MULTISAMPLE_X16 : Nat := 2 ^ 4
def MULTISAMPLE_RESOLVE : Nat := 2 ^ 5
def STORAGE_READ_WRITE : Nat := 2 ^ 6
def BLENDABLE : Nat := 2 ^ 7

def empty : Nat := 0

/-- `bitflags` membership test on the `u32` set. -/
def contains (self other : Nat) : Bool := self &&& other == other

/-- `bitflags::Flags::set(flag, value)`: insert the flag when `value` is true,
remove it (mask with the `u32` complement) otherwise. -/
def set (self flag : Nat) (value : Bool) : Nat :=
  if value then self ||| flag else self &&& (4294967295 ^^^ flag)

end TextureFormatFeatureFlags

/-- ASTC block dimensions (`AstcBlock`). -/
inductive AstcBlock where
  | B4x4
  | B5x4
  | B5x5
  | B6x5
  | B6x6
  | B8x5
  | B8x6
  | B8x8
  | B10x5
  | B10x6
  | B10x8
  | B10x10
  | B12x10
  | B12x12
deriving DecidableEq, Repr, Fintype

/-- ASTC RGBA channel (`AstcChannel`). -/
inductive AstcChannel where
  | Unorm
  | UnormSrgb
  | Hdr
deriving DecidableEq, Repr

set_option maxHeartbeats 1600000 in
/-- Underlying texture data format (`TextureFormat`), in source declaration order. -/
inductive TextureFormat where
  | R8Unorm
  | R8Snorm
  | R8Uint
  | R8Sint
  | R16Uint
  | R16Sint
  | R16Unorm
  | R16Snorm
  | R16Float
  | Rg8Unorm
  | Rg8Snorm
  | Rg8Uint
  | Rg8Sint
  | R32Uint
  | R32Sint
  | R32Float
  | Rg16Uint
  | Rg16Sint
  | Rg16Unorm
  | Rg16Snorm
  | Rg16Float
  | Rgba8Unorm
  | Rgba8UnormSrgb
  | Rgba8Snorm
  | Rgba8Uint
  | Rgba8Sint
  | Bgra8Unorm
  | Bgra8UnormSrgb
  | Rgb9e5Ufloat
  | Rgb10a2Uint
  | Rgb10a2Unorm
  | Rg11b10Ufloat
  | Rg32Uint
  | Rg32Sint
  | Rg32Float
  | Rgba16Uint
  | Rgba16Sint
  | Rgba16Unorm
  | Rgba16Snorm
  | Rgba16Float
  | Rgba32Uint
  | Rgba32Sint
  | Rgba32Float
  | Stencil8
  | Depth16Unorm
  | Depth24Plus
  | Depth24PlusStencil8
  | Depth32Float
  | Depth32FloatStencil8
  | NV12
  | Bc1RgbaUnorm
  | Bc1RgbaUnormSrgb
  | Bc2RgbaUnorm
  | Bc2RgbaUnormSrgb
  | Bc3RgbaUnorm
  | Bc3RgbaUnormSrgb
  | Bc4RUnorm
  | Bc4RSnorm
  | Bc5RgUnorm
  | Bc5RgSnorm
  | Bc6hRgbUfloat
  | Bc6hRgbFloat
  | Bc7RgbaUnorm
  | Bc7RgbaUnormSrgb
  | Etc2Rgb8Unorm
  | Etc2Rgb8UnormSrgb
  | Etc2Rgb8A1Unorm
  | Etc2Rgb8A1UnormSrgb
  | Etc2Rgba8Unorm
  | Etc2Rgba8UnormSrgb
  | EacR11Unorm
  | EacR11Snorm
  | EacRg11Unorm
  | EacRg11Snorm
  | Astc (block : AstcBlock) (channel : AstcChannel)
deriving Repr

/-- Kind of data the texture holds (`TextureAspect`). -/
inductive TextureAspect where
  | All
  | StencilOnly
  | DepthOnly
  | Plane0
  | Plane1
  | Plane2
deriving DecidableEq, Repr

/-- Specific type of a sample in a texture binding (`TextureSampleType`). -/
inductive TextureSampleType where
  | Float (filterable : Bool)
  | Depth
  | Sint
  | Uint
deriving DecidableEq, Repr

/-- Features supported by a given texture format (`TextureFormatFeatures`). -/
structure TextureFormatFeatures where
  allowed_usages : Nat
  flags : Nat
deriving DecidableEq, Repr

namespace TextureFormat

/-- `TextureFormat::sample_type(aspect, device_features)`. -/
def sample_type (self : TextureFormat) (aspect : Option TextureAspect)
    (device_features : Option Nat) : Option TextureSampleType :=
  let float := TextureSampleType.Float true
  let unfilterable_float := TextureSampleType.Float false
  let float32_sample_type := TextureSampleType.Float
    (Features.contains (device_features.getD Features.empty) Features.FLOAT32_FILTERABLE)
  let depth := TextureSampleType.Depth
  let uint := TextureSampleType.Uint
  let sint := TextureSampleType.Sint
  match self with
  | .R8Unorm | .R8Snorm | .Rg8Unorm | .Rg8Snorm | .Rgba8Unorm | .Rgba8UnormSrgb
  | .Rgba8Snorm | .Bgra8Unorm | .Bgra8UnormSrgb | .R16Float | .Rg16Float
  | .Rgba16Float | .Rgb10a2Unorm | .Rg11b10Ufloat => some float
  | .R32Float | .Rg32Float | .Rgba32Float => some float32_sample_type
  | .R8Uint | .Rg8Uint | .Rgba8Uint | .R16Uint | .Rg16Uint | .Rgba16Uint
  | .R32Uint | .Rg32Uint | .Rgba32Uint | .Rgb10a2Uint => some uint
  | .R8Sint | .Rg8Sint | .Rgba8Sint | .R16Sint | .Rg16Sint | .Rgba16Sint
  | .R32Sint | .Rg32Sint | .Rgba32Sint => some sint
  | .Stencil8 => some uint
  | .Depth16Unorm | .Depth24Plus | .Depth32Float => some depth
  | .Depth24PlusStencil8 | .Depth32FloatStencil8 =>
    match aspect with
    | some .DepthOnly => some depth
    | some .StencilOnly => some uint
    | _ => none
  | .NV12 =>
    match aspect with
    | some .Plane0 | some .Plane1 => some unfilterable_float
    | _ => none
  | .R16Unorm | .R16Snorm | .Rg16Unorm | .Rg16Snorm | .Rgba16Unorm
  | .Rgba16Snorm => some float
  | .Rgb9e5Ufloat => some float
  | .Bc1RgbaUnorm | .Bc1RgbaUnormSrgb | .Bc2RgbaUnorm | .Bc2RgbaUnormSrgb
  | .Bc3RgbaUnorm | .Bc3RgbaUnormSrgb | .Bc4RUnorm | .Bc4RSnorm
  | .Bc5RgUnorm | .Bc5RgSnorm | .Bc6hRgbUfloat | .Bc6hRgbFloat
  | .Bc7RgbaUnorm | .Bc7RgbaUnormSrgb => some float
  | .Etc2Rgb8Unorm | .Etc2Rgb8UnormSrgb | .Etc2Rgb8A1Unorm | .Etc2Rgb8A1UnormSrgb
  | .Etc2Rgba8Unorm | .Etc2Rgba8UnormSrgb | .EacR11Unorm | .EacR11Snorm
  | .EacRg11Unorm | .EacRg11Snorm => some float
  | .Astc _ _ => some float

/-- `TextureFormat::planes()`: the number of planes of a multi-planar format. -/
def planes (self : TextureFormat) : Option Nat :=
  match self with
  | .NV12 => some 2
  | _ => none

/-- `TextureFormat::is_multi_planar_format()`. -/
def is_multi_planar_format (self : TextureFormat) : Bool :=
  self.planes.isSome

/-- `TextureFormat::is_combined_depth_stencil_format()`. -/
def is_combined_depth_stencil_format (self : TextureFormat) : Bool :=
  match self with
  | .Depth24PlusStencil8 | .Depth32FloatStencil8 => true
  | _ => false

/-- `TextureFormat::is_depth_stencil_format()`. -/
def is_depth_stencil_format (self : TextureFormat) : Bool :=
  match self with
  | .Stencil8 | .Depth16Unorm | .Depth24Plus | .Depth24PlusStencil8
  | .Depth32Float | .Depth32FloatStencil8 => true
  | _ => false

/-- `TextureFormat::aspect_specific_format(aspect)`. -/
def aspect_specific_format (self : TextureFormat) (aspect : TextureAspect) :
    Option TextureFormat :=
  match self, aspect with
  | .Stencil8, .StencilOnly => some self
  | .Depth16Unorm, .DepthOnly | .Depth24Plus, .DepthOnly
  | .Depth32Float, .DepthOnly => some self
  | .Depth24PlusStencil8, .StencilOnly
  | .Depth32FloatStencil8, .StencilOnly => some .Stencil8
  | .Depth24PlusStencil8, .DepthOnly => some .Depth24Plus
  | .Depth32FloatStencil8, .DepthOnly => some .Depth32Float
  | .NV12, .Plane0 => some .R8Unorm
  | .NV12, .Plane1 => some .Rg8Unorm
  | format, .All => if format.is_multi_planar_format then none else some format
  | _, _ => none

/-- `TextureFormat::is_depth_stencil_component(combined_format)`. -/
def is_depth_stencil_component (self : TextureFormat) (combined_format : TextureFormat) :
    Bool :=
  match combined_format, self with
  | .Depth24PlusStencil8, .Depth24Plus | .Depth24PlusStencil8, .Stencil8
  | .Depth32FloatStencil8, .Depth32Float | .Depth32FloatStencil8, .Stencil8 => true
  | _, _ => false

/-- `TextureFormat::block_dimensions()`. -/
def block_dimensions (self : TextureFormat) : Nat × Nat :=
  match self with
  | .R8Unorm | .R8Snorm | .R8Uint | .R8Sint | .R16Uint | .R16Sint
  | .R16Unorm | .R16Snorm | .R16Float | .Rg8Unorm | .Rg8Snorm | .Rg8Uint
  | .Rg8Sint | .R32Uint | .R32Sint | .R32Float | .Rg16Uint | .Rg16Sint
  | .Rg16Unorm | .Rg16Snorm | .Rg16Float | .Rgba8Unorm | .Rgba8UnormSrgb
  | .Rgba8Snorm | .Rgba8Uint | .Rgba8Sint | .Bgra8Unorm | .Bgra8UnormSrgb
  | .Rgb9e5Ufloat | .Rgb10a2Uint | .Rgb10a2Unorm | .Rg11b10Ufloat
  | .Rg32Uint | .Rg32Sint | .Rg32Float | .Rgba16Uint | .Rgba16Sint
  | .Rgba16Unorm | .Rgba16Snorm | .Rgba16Float | .Rgba32Uint | .Rgba32Sint
  | .Rgba32Float | .Stencil8 | .Depth16Unorm | .Depth24Plus
  | .Depth24PlusStencil8 | .Depth32Float | .Depth32FloatStencil8
  | .NV12 => (1, 1)
  | .Bc1RgbaUnorm | .Bc1RgbaUnormSrgb | .Bc2RgbaUnorm | .Bc2RgbaUnormSrgb
  | .Bc3RgbaUnorm | .Bc3RgbaUnormSrgb | .Bc4RUnorm | .Bc4RSnorm
  | .Bc5RgUnorm | .Bc5RgSnorm | .Bc6hRgbUfloat | .Bc6hRgbFloat
  | .Bc7RgbaUnorm | .Bc7RgbaUnormSrgb => (4, 4)
  | .Etc2Rgb8Unorm | .Etc2Rgb8UnormSrgb | .Etc2Rgb8A1Unorm | .Etc2Rgb8A1UnormSrgb
  | .Etc2Rgba8Unorm | .Etc2Rgba8UnormSrgb | .EacR11Unorm | .EacR11Snorm
  | .EacRg11Unorm | .EacRg11Snorm => (4, 4)
  | .Astc block _ =>
    match block with
    | .B4x4 => (4, 4)
    | .B5x4 => (5, 4)
    | .B5x5 => (5, 5)
    | .B6x5 => (6, 5)
    | .B6x6 => (6, 6)
    | .B8x5 => (8, 5)
    | .B8x6 => (8, 6)
    | .B8x8 => (8, 8)
    | .B10x5 => (10, 5)
    | .B10x6 => (10, 6)
    | .B10x8 => (10, 8)
    | .B10x10 => (10, 10)
    | .B12x10 => (12, 10)
    | .B12x12 => (12, 12)

/-- `TextureFormat::block_copy_size(aspect)`. -/
def block_copy_size (self : TextureFormat) (aspect : Option TextureAspect) :
    Option Nat :=
  match self with
  | .R8Unorm | .R8Snorm | .R8Uint | .R8Sint => some 1
  | .Rg8Unorm | .Rg8Snorm | .Rg8Uint | .Rg8Sint => some 2
  | .R16Unorm | .R16Snorm | .R16Uint | .R16Sint | .R16Float => some 2
  | .Rgba8Unorm | .Rgba8UnormSrgb | .Rgba8Snorm | .Rgba8Uint | .Rgba8Sint
  | .Bgra8Unorm | .Bgra8UnormSrgb => some 4
  | .Rg16Unorm | .Rg16Snorm | .Rg16Uint | .Rg16Sint | .Rg16Float => some 4
  | .R32Uint | .R32Sint | .R32Float => some 4
  | .Rgb9e5Ufloat | .Rgb10a2Uint | .Rgb10a2Unorm | .Rg11b10Ufloat => some 4
  | .Rgba16Unorm | .Rgba16Snorm | .Rgba16Uint | .Rgba16Sint | .Rgba16Float => some 8
  | .Rg32Uint | .Rg32Sint | .Rg32Float => some 8
  | .Rgba32Uint | .Rgba32Sint | .Rgba32Float => some 16
  | .Stencil8 => some 1
  | .Depth16Unorm => some 2
  | .Depth32Float => some 4
  | .Depth24Plus => none
  | .Depth24PlusStencil8 =>
    match aspect with
    | some .DepthOnly => none
    | some .StencilOnly => some 1
    | _ => none
  | .Depth32FloatStencil8 =>
    match aspect with
    | some .DepthOnly => some 4
    | some .StencilOnly => some 1
    | _ => none
  | .NV12 =>
    match aspect with
    | some .Plane0 => some 1
    | some .Plane1 => some 2
    | _ => none
  | .Bc1RgbaUnorm | .Bc1RgbaUnormSrgb | .Bc4RUnorm | .Bc4RSnorm => some 8
  | .Bc2RgbaUnorm | .Bc2RgbaUnormSrgb | .Bc3RgbaUnorm | .Bc3RgbaUnormSrgb
  | .Bc5RgUnorm | .Bc5RgSnorm | .Bc6hRgbUfloat | .Bc6hRgbFloat
  | .Bc7RgbaUnorm | .Bc7RgbaUnormSrgb => some 16
  | .Etc2Rgb8Unorm | .Etc2Rgb8UnormSrgb | .Etc2Rgb8A1Unorm | .Etc2Rgb8A1UnormSrgb
  | .EacR11Unorm | .EacR11Snorm => some 8
  | .Etc2Rgba8Unorm | .Etc2Rgba8UnormSrgb | .EacRg11Unorm | .EacRg11Snorm => some 16
  | .Astc _ _ => some 16

/-- `TextureFormat::guaranteed_format_features(device_features)`. -/
def guaranteed_format_features (self : TextureFormat) (device_features : Nat) :
    TextureFormatFeatures :=
  let noaa := TextureFormatFeatureFlags.empty
  let msaa := TextureFormatFeatureFlags.MULTISAMPLE_X4
  let msaa_resolve := msaa ||| TextureFormatFeatureFlags.MULTISAMPLE_RESOLVE
  let basic := TextureUsages.COPY_SRC ||| TextureUsages.COPY_DST |||
    TextureUsages.TEXTURE_BINDING
  let attachment := basic ||| TextureUsages.RENDER_ATTACHMENT
  let storage := basic ||| TextureUsages.STORAGE_BINDING
  let binding := TextureUsages.TEXTURE_BINDING
  let all_flags := TextureUsages.all
  let rg11b10f :=
    if Features.contains device_features Features.RG11B10UFLOAT_RENDERABLE then attachment
    else basic
  let bgra8unorm :=
    if Features.contains device_features Features.BGRA8UNORM_STORAGE then
      attachment ||| TextureUsages.STORAGE_BINDING
    else attachment
  let p : Nat × Nat :=
    match self with
    | .R8Unorm => (msaa_resolve, attachment)
    | .R8Snorm => (noaa, basic)
    | .R8Uint => (msaa, attachment)
    | .R8Sint => (msaa, attachment)
    | .R16Uint => (msaa, attachment)
    | .R16Sint => (msaa, attachment)
    | .R16Float => (msaa_resolve, attachment)
    | .Rg8Unorm => (msaa_resolve, attachment)
    | .Rg8Snorm => (noaa, basic)
    | .Rg8Uint => (msaa, attachment)
    | .Rg8Sint => (msaa, attachment)
    | .R32Uint => (noaa, all_flags)
    | .R32Sint => (noaa, all_flags)
    | .R32Float => (msaa, all_flags)
    | .Rg16Uint => (msaa, attachment)
    | .Rg16Sint => (msaa, attachment)
    | .Rg16Float => (msaa_resolve, attachment)
    | .Rgba8Unorm => (msaa_resolve, all_flags)
    | .Rgba8UnormSrgb => (msaa_resolve, attachment)
    | .Rgba8Snorm => (noaa, storage)
    | .Rgba8Uint => (msaa, all_flags)
    | .Rgba8Sint => (msaa, all_flags)
    | .Bgra8Unorm => (msaa_resolve, bgra8unorm)
    | .Bgra8UnormSrgb => (msaa_resolve, attachment)
    | .Rgb10a2Uint => (msaa, attachment)
    | .Rgb10a2Unorm => (msaa_resolve, attachment)
    | .Rg11b10Ufloat => (msaa, rg11b10f)
    | .Rg32Uint => (noaa, all_flags)
    | .Rg32Sint => (noaa, all_flags)
    | .Rg32Float => (noaa, all_flags)
    | .Rgba16Uint => (msaa, all_flags)
    | .Rgba16Sint => (msaa, all_flags)
    | .Rgba16Float => (msaa_resolve, all_flags)
    | .Rgba32Uint => (noaa, all_flags)
    | .Rgba32Sint => (noaa, all_flags)
    | .Rgba32Float => (noaa, all_flags)
    | .Stencil8 => (msaa, attachment)
    | .Depth16Unorm => (msaa, attachment)
    | .Depth24Plus => (msaa, attachment)
    | .Depth24PlusStencil8 => (msaa, attachment)
    | .Depth32Float => (msaa, attachment)
    | .Depth32FloatStencil8 => (msaa, attachment)
    | .NV12 => (noaa, binding)
    | .R16Unorm => (msaa, storage)
    | .R16Snorm => (msaa, storage)
    | .Rg16Unorm => (msaa, storage)
    | .Rg16Snorm => (msaa, storage)
    | .Rgba16Unorm => (msaa, storage)
    | .Rgba16Snorm => (msaa, storage)
    | .Rgb9e5Ufloat => (noaa, basic)
    | .Bc1RgbaUnorm => (noaa, basic)
    | .Bc1RgbaUnormSrgb => (noaa, basic)
    | .Bc2RgbaUnorm => (noaa, basic)
    | .Bc2RgbaUnormSrgb => (noaa, basic)
    | .Bc3RgbaUnorm => (noaa, basic)
    | .Bc3RgbaUnormSrgb => (noaa, basic)
    | .Bc4RUnorm => (noaa, basic)
    | .Bc4RSnorm => (noaa, basic)
    | .Bc5RgUnorm => (noaa, basic)
    | .Bc5RgSnorm => (noaa, basic)
    | .Bc6hRgbUfloat => (noaa, basic)
    | .Bc6hRgbFloat => (noaa, basic)
    | .Bc7RgbaUnorm => (noaa, basic)
    | .Bc7RgbaUnormSrgb => (noaa, basic)
    | .Etc2Rgb8Unorm => (noaa, basic)
    | .Etc2Rgb8UnormSrgb => (noaa, basic)
    | .Etc2Rgb8A1Unorm => (noaa, basic)
    | .Etc2Rgb8A1UnormSrgb => (noaa, basic)
    | .Etc2Rgba8Unorm => (noaa, basic)
    | .Etc2Rgba8UnormSrgb => (noaa, basic)
    | .EacR11Unorm => (noaa, basic)
    | .EacR11Snorm => (noaa, basic)
    | .EacRg11Unorm => (noaa, basic)
    | .EacRg11Snorm => (noaa, basic)
    | .Astc _ _ => (noaa, basic)
  let flags := p.1
  let allowed_usages := p.2
  let sample_type1 := self.sample_type none (some device_features)
  let is_filterable := sample_type1 == some (TextureSampleType.Float true)
  let sample_type2 := self.sample_type none none
  let is_blendable := sample_type2 == some (TextureSampleType.Float true)
  let flags := TextureFormatFeatureFlags.set flags
    TextureFormatFeatureFlags.FILTERABLE is_filterable
  let flags := TextureFormatFeatureFlags.set flags
    TextureFormatFeatureFlags.BLENDABLE is_blendable
  { allowed_usages := allowed_usages, flags := flags }

/-- `impl Serialize for TextureFormat`: the fixed lowercase kebab-case token of
each variant; the ASTC family is built as in the source format string. -/
def serialize (self : TextureFormat) : String :=
  match self with
  | .R8Unorm => "r8unorm"
  | .R8Snorm => "r8snorm"
  | .R8Uint => "r8uint"
  | .R8Sint => "r8sint"
  | .R16Uint => "r16uint"
  | .R16Sint => "r16sint"
  | .R16Unorm => "r16unorm"
  | .R16Snorm => "r16snorm"
  | .R16Float => "r16float"
  | .Rg8Unorm => "rg8unorm"
  | .Rg8Snorm => "rg8snorm"
  | .Rg8Uint => "rg8uint"
  | .Rg8Sint => "rg8sint"
  | .R32Uint => "r32uint"
  | .R32Sint => "r32sint"
  | .R32Float => "r32float"
  | .Rg16Uint => "rg16uint"
  | .Rg16Sint => "rg16sint"
  | .Rg16Unorm => "rg16unorm"
  | .Rg16Snorm => "rg16snorm"
  | .Rg16Float => "rg16float"
  | .Rgba8Unorm => "rgba8unorm"
  | .Rgba8UnormSrgb => "rgba8unorm-srgb"
  | .Rgba8Snorm => "rgba8snorm"
  | .Rgba8Uint => "rgba8uint"
  | .Rgba8Sint => "rgba8sint"
  | .Bgra8Unorm => "bgra8unorm"
  | .Bgra8UnormSrgb => "bgra8unorm-srgb"
  | .Rgb10a2Uint => "rgb10a2uint"
  | .Rgb10a2Unorm => "rgb10a2unorm"
  | .Rg11b10Ufloat => "rg11b10ufloat"
  | .Rg32Uint => "rg32uint"
  | .Rg32Sint => "rg32sint"
  | .Rg32Float => "rg32float"
  | .Rgba16Uint => "rgba16uint"
  | .Rgba16Sint => "rgba16sint"
  | .Rgba16Unorm => "rgba16unorm"
  | .Rgba16Snorm => "rgba16snorm"
  | .Rgba16Float => "rgba16float"
  | .Rgba32Uint => "rgba32uint"
  | .Rgba32Sint => "rgba32sint"
  | .Rgba32Float => "rgba32float"
  | .Stencil8 => "stencil8"
  | .Depth32Float => "depth32float"
  | .Depth16Unorm => "depth16unorm"
  | .Depth32FloatStencil8 => "depth32float-stencil8"
  | .Depth24Plus => "depth24plus"
  | .Depth24PlusStencil8 => "depth24plus-stencil8"
  | .NV12 => "nv12"
  | .Rgb9e5Ufloat => "rgb9e5ufloat"
  | .Bc1RgbaUnorm => "bc1-rgba-unorm"
  | .Bc1RgbaUnormSrgb => "bc1-rgba-unorm-srgb"
  | .Bc2RgbaUnorm => "bc2-rgba-unorm"
  | .Bc2RgbaUnormSrgb => "bc2-rgba-unorm-srgb"
  | .Bc3RgbaUnorm => "bc3-rgba-unorm"
  | .Bc3RgbaUnormSrgb => "bc3-rgba-unorm-srgb"
  | .Bc4RUnorm => "bc4-r-unorm"
  | .Bc4RSnorm => "bc4-r-snorm"
  | .Bc5RgUnorm => "bc5-rg-unorm"
  | .Bc5RgSnorm => "bc5-rg-snorm"
  | .Bc6hRgbUfloat => "bc6h-rgb-ufloat"
  | .Bc6hRgbFloat => "bc6h-rgb-float"
  | .Bc7RgbaUnorm => "bc7-rgba-unorm"
  | .Bc7RgbaUnormSrgb => "bc7-rgba-unorm-srgb"
  | .Etc2Rgb8Unorm => "etc2-rgb8unorm"
  | .Etc2Rgb8UnormSrgb => "etc2-rgb8unorm-srgb"
  | .Etc2Rgb8A1Unorm => "etc2-rgb8a1unorm"
  | .Etc2Rgb8A1UnormSrgb => "etc2-rgb8a1unorm-srgb"
  | .Etc2Rgba8Unorm => "etc2-rgba8unorm"
  | .Etc2Rgba8UnormSrgb => "etc2-rgba8unorm-srgb"
  | .EacR11Unorm => "eac-r11unorm"
  | .EacR11Snorm => "eac-r11snorm"
  | .EacRg11Unorm => "eac-rg11unorm"
  | .EacRg11Snorm => "eac-rg11snorm"
  | .Astc block channel =>
    let blockStr :=
      match block with
      | .B4x4 => "4x4"
      | .B5x4 => "5x4"
      | .B5x5 => "5x5"
      | .B6x5 => "6x5"
      | .B6x6 => "6x6"
      | .B8x5 => "8x5"
      | .B8x6 => "8x6"
      | .B8x8 => "8x8"
      | .B10x5 => "10x5"
      | .B10x6 => "10x6"
      | .B10x8 => "10x8"
      | .B10x10 => "10x10"
      | .B12x10 => "12x10"
      | .B12x12 => "12x12"
    let channelStr :=
      match channel with
      | .Unorm => "unorm"
      | .UnormSrgb => "unorm-srgb"
      | .Hdr => "hdr"
    "astc-" ++ blockStr ++ "-" ++ channelStr

/-- `str::split_once(ch)`: split at the first occurrence of the separator. -/
def splitOnce (s : String) (ch : Char) : Option (String × String) :=
  match s.toList.findIdx? (fun c => c == ch) with
  | none => none
  | some i => some (String.mk (s.toList.take i), String.mk (s.toList.drop (i + 1)))

/-- `str::strip_prefix(pre)`: the remainder of `s` after `pre`, when `pre`
leads `s`; computed on the character list so it evaluates by reduction. -/
def stripPre (pre s : String) : Option String :=
  if s.toList.take pre.toList.length == pre.toList then
    some (String.mk (s.toList.drop pre.toList.length))
  else none

/-- `impl Deserialize for TextureFormat` (`visit_str`): decode failure is `none`. -/
def deserialize (s : String) : Option TextureFormat :=
  match s with
  | "r8unorm" => some .R8Unorm
  | "r8snorm" => some .R8Snorm
  | "r8uint" => some .R8Uint
  | "r8sint" => some .R8Sint
  | "r16uint" => some .R16Uint
  | "r16sint" => some .R16Sint
  | "r16unorm" => some .R16Unorm
  | "r16snorm" => some .R16Snorm
  | "r16float" => some .R16Float
  | "rg8unorm" => some .Rg8Unorm
  | "rg8snorm" => some .Rg8Snorm
  | "rg8uint" => some .Rg8Uint
  | "rg8sint" => some .Rg8Sint
  | "r32uint" => some .R32Uint
  | "r32sint" => some .R32Sint
  | "r32float" => some .R32Float
  | "rg16uint" => some .Rg16Uint
  | "rg16sint" => some .Rg16Sint
  | "rg16unorm" => some .Rg16Unorm
  | "rg16snorm" => some .Rg16Snorm
  | "rg16float" => some .Rg16Float
  | "rgba8unorm" => some .Rgba8Unorm
  | "rgba8unorm-srgb" => some .Rgba8UnormSrgb
  | "rgba8snorm" => some .Rgba8Snorm
  | "rgba8uint" => some .Rgba8Uint
  | "rgba8sint" => some .Rgba8Sint
  | "bgra8unorm" => some .Bgra8Unorm
  | "bgra8unorm-srgb" => some .Bgra8UnormSrgb
  | "rgb10a2uint" => some .Rgb10a2Uint
  | "rgb10a2unorm" => some .Rgb10a2Unorm
  | "rg11b10ufloat" => some .Rg11b10Ufloat
  | "rg32uint" => some .Rg32Uint
  | "rg32sint" => some .Rg32Sint
  | "rg32float" => some .Rg32Float
  | "rgba16uint" => some .Rgba16Uint
  | "rgba16sint" => some .Rgba16Sint
  | "rgba16unorm" => some .Rgba16Unorm
  | "rgba16snorm" => some .Rgba16Snorm
  | "rgba16float" => some .Rgba16Float
  | "rgba32uint" => some .Rgba32Uint
  | "rgba32sint" => some .Rgba32Sint
  | "rgba32float" => some .Rgba32Float
  | "stencil8" => some .Stencil8
  | "depth32float" => some .Depth32Float
  | "depth32float-stencil8" => some .Depth32FloatStencil8
  | "depth16unorm" => some .Depth16Unorm
  | "depth24plus" => some .Depth24Plus
  | "depth24plus-stencil8" => some .Depth24PlusStencil8
  | "nv12" => some .NV12
  | "rgb9e5ufloat" => some .Rgb9e5Ufloat
  | "bc1-rgba-unorm" => some .Bc1RgbaUnorm
  | "bc1-rgba-unorm-srgb" => some .Bc1RgbaUnormSrgb
  | "bc2-rgba-unorm" => some .Bc2RgbaUnorm
  | "bc2-rgba-unorm-srgb" => some .Bc2RgbaUnormSrgb
  | "bc3-rgba-unorm" => some .Bc3RgbaUnorm
  | "bc3-rgba-unorm-srgb" => some .Bc3RgbaUnormSrgb
  | "bc4-r-unorm" => some .Bc4RUnorm
  | "bc4-r-snorm" => some .Bc4RSnorm
  | "bc5-rg-unorm" => some .Bc5RgUnorm
  | "bc5-rg-snorm" => some .Bc5RgSnorm
  | "bc6h-rgb-ufloat" => some .Bc6hRgbUfloat
  | "bc6h-rgb-float" => some .Bc6hRgbFloat
  | "bc7-rgba-unorm" => some .Bc7RgbaUnorm
  | "bc7-rgba-unorm-srgb" => some .Bc7RgbaUnormSrgb
  | "etc2-rgb8unorm" => some .Etc2Rgb8Unorm
  | "etc2-rgb8unorm-srgb" => some .Etc2Rgb8UnormSrgb
  | "etc2-rgb8a1unorm" => some .Etc2Rgb8A1Unorm
  | "etc2-rgb8a1unorm-srgb" => some .Etc2Rgb8A1UnormSrgb
  | "etc2-rgba8unorm" => some .Etc2Rgba8Unorm
  | "etc2-rgba8unorm-srgb" => some .Etc2Rgba8UnormSrgb
  | "eac-r11unorm" => some .EacR11Unorm
  | "eac-r11snorm" => some .EacR11Snorm
  | "eac-rg11unorm" => some .EacRg11Unorm
  | "eac-rg11snorm" => some .EacRg11Snorm
  | other =>
    match stripPre "astc-" other with
    | none => none
    | some parts =>
      match splitOnce parts (Char.ofNat 45) with
      | none => none
      | some (blockStr, channelStr) =>
        let block : Option AstcBlock :=
          match blockStr with
          | "4x4" => some .B4x4
          | "5x4" => some .B5x4
          | "5x5" => some .B5x5
          | "6x5" => some .B6x5
          | "6x6" => some .B6x6
          | "8x5" => some .B8x5
          | "8x6" => some .B8x6
          | "8x8" => some .B8x8
          | "10x5" => some .B10x5
          | "10x6" => some .B10x6
          | "10x8" => some .B10x8
          | "10x10" => some .B10x10
          | "12x10" => some .B12x10
          | "12x12" => some .B12x12
          | _ => none
        let channel : Option AstcChannel :=
          match channelStr with
          | "unorm" => some .Unorm
          | "unorm-srgb" => some .UnormSrgb
          | "hdr" => some .Hdr
          | _ => none
        match block, channel with
        | some b, some c => some (TextureFormat.Astc b c)
        | _, _ => none

end TextureFormat

/-- Limit record (`Limits`): every numeric bound as a natural number, in source
declaration order. -/
structure Limits where
  max_texture_dimension_1d : Nat
  max_texture_dimension_2d : Nat
  max_texture_dimension_3d : Nat
  max_texture_array_layers : Nat
  max_bind_groups : Nat
  max_bindings_per_bind_group : Nat
  max_dynamic_uniform_buffers_per_pipeline_layout : Nat
  max_dynamic_storage_buffers_per_pipeline_layout : Nat
  max_sampled_textures_per_shader_stage : Nat
  max_samplers_per_shader_stage : Nat
  max_storage_buffers_per_shader_stage : Nat
  max_storage_textures_per_shader_stage : Nat
  max_uniform_buffers_per_shader_stage : Nat
  max_uniform_buffer_binding_size : Nat
  max_storage_buffer_binding_size : Nat
  max_vertex_buffers : Nat
  max_buffer_size : Nat
  max_vertex_attributes : Nat
  max_vertex_buffer_array_stride : Nat
  min_uniform_buffer_offset_alignment : Nat
  min_storage_buffer_offset_alignment : Nat
  max_inter_stage_shader_components : Nat
  max_color_attachments : Nat
  max_color_attachment_bytes_per_sample : Nat
  max_compute_workgroup_storage_size : Nat
  max_compute_invocations_per_workgroup : Nat
  max_compute_workgroup_size_x : Nat
  max_compute_workgroup_size_y : Nat
  max_compute_workgroup_size_z : Nat
  max_compute_workgroups_per_dimension : Nat
  min_subgroup_size : Nat
  max_subgroup_size : Nat
  max_push_constant_size : Nat
  max_non_sampler_bindings : Nat
deriving DecidableEq, Repr

namespace Limits

/-- `Limits::defaults()`. -/
def defaults : Limits where
  max_texture_dimension_1d := 8192
  max_texture_dimension_2d := 8192
  max_texture_dimension_3d := 2048
  max_texture_array_layers := 256
  max_bind_groups := 4
  max_bindings_per_bind_group := 1000
  max_dynamic_uniform_buffers_per_pipeline_layout := 8
  max_dynamic_storage_buffers_per_pipeline_layout := 4
  max_sampled_textures_per_shader_stage := 16
  max_samplers_per_shader_stage := 16
  max_storage_buffers_per_shader_stage := 8
  max_storage_textures_per_shader_stage := 4
  max_uniform_buffers_per_shader_stage := 12
  max_uniform_buffer_binding_size := 65536
  max_storage_buffer_binding_size := 134217728
  max_vertex_buffers := 8
  max_buffer_size := 268435456
  max_vertex_attributes := 16
  max_vertex_buffer_array_stride := 2048
  min_uniform_buffer_offset_alignment := 256
  min_storage_buffer_offset_alignment := 256
  max_inter_stage_shader_components := 60
  max_color_attachments := 8
  max_color_attachment_bytes_per_sample := 32
  max_compute_workgroup_storage_size := 16384
  max_compute_invocations_per_workgroup := 256
  max_compute_workgroup_size_x := 256
  max_compute_workgroup_size_y := 256
  max_compute_workgroup_size_z := 64
  max_compute_workgroups_per_dimension := 65535
  min_subgroup_size := 0
  max_subgroup_size := 0
  max_push_constant_size := 0
  max_non_sampler_bindings := 1000000

end Limits

/-- Direction parameter of the source's `compare!` macro: the `Ordering`
variant that (together with `Equal`) lets a field pass. -/
inductive LimitOrd where
  | Less
  | Greater
deriving DecidableEq, Repr

/-- One `compare!` expansion: `match requested.cmp(allowed)` passes on the
declared direction or `Equal`. -/
def cmpPasses (dir : LimitOrd) (req alw : Nat) : Bool :=
  match dir with
  | .Less =>
    match compare req alw with
    | .lt | .eq => true
    | .gt => false
  | .Greater =>
    match compare req alw with
    | .gt | .eq => true
    | .lt => false

/-- One `compare!` step of `check_limits_with_fail_fn`, in continuation style:
on failure the field is reported, and with `fatal` set the remaining
comparisons (`rest`) are dropped (the early `return`). -/
def compareLimit (name : String) (dir : LimitOrd) (req alw : Nat) (fatal : Bool)
    (rest : List (String × Nat × Nat)) : List (String × Nat × Nat) :=
  if cmpPasses dir req alw then rest
  else (name, req, alw) :: (if fatal then [] else rest)

namespace Limits

/-- `Limits::check_limits_with_fail_fn(allowed, fatal, fail_fn)`: the list of
`fail_fn(name, self_value, allowed_value)` invocations, in invocation order. -/
def check_limits_with_fail_fn (self allowed : Limits) (fatal : Bool) :
    List (String × Nat × Nat) :=
  let tail :=
    compareLimit "max_push_constant_size" .Less
      self.max_push_constant_size allowed.max_push_constant_size fatal (
    compareLimit "max_non_sampler_bindings" .Less
      self.max_non_sampler_bindings allowed.max_non_sampler_bindings fatal [])
  compareLimit "max_texture_dimension_1d" .Less
    self.max_texture_dimension_1d allowed.max_texture_dimension_1d fatal (
  compareLimit "max_texture_dimension_2d" .Less
    self.max_texture_dimension_2d allowed.max_texture_dimension_2d fatal (
  compareLimit "max_texture_dimension_3d" .Less
    self.max_texture_dimension_3d allowed.max_texture_dimension_3d fatal (
  compareLimit "max_texture_array_layers" .Less
    self.max_texture_array_layers allowed.max_texture_array_layers fatal (
  compareLimit "max_bind_groups" .Less
    self.max_bind_groups allowed.max_bind_groups fatal (
  compareLimit "max_bindings_per_bind_group" .Less
    self.max_bindings_per_bind_group allowed.max_bindings_per_bind_group fatal (
  compareLimit "max_dynamic_uniform_buffers_per_pipeline_layout" .Less
    self.max_dynamic_uniform_buffers_per_pipeline_layout
    allowed.max_dynamic_uniform_buffers_per_pipeline_layout fatal (
  compareLimit "max_dynamic_storage_buffers_per_pipeline_layout" .Less
    self.max_dynamic_storage_buffers_per_pipeline_layout
    allowed.max_dynamic_storage_buffers_per_pipeline_layout fatal (
  compareLimit "max_sampled_textures_per_shader_stage" .Less
    self.max_sampled_textures_per_shader_stage
    allowed.max_sampled_textures_per_shader_stage fatal (
  compareLimit "max_samplers_per_shader_stage" .Less
    self.max_samplers_per_shader_stage allowed.max_samplers_per_shader_stage fatal (
  compareLimit "max_storage_buffers_per_shader_stage" .Less
    self.max_storage_buffers_per_shader_stage
    allowed.max_storage_buffers_per_shader_stage fatal (
  compareLimit "max_storage_textures_per_shader_stage" .Less
    self.max_storage_textures_per_shader_stage
    allowed.max_storage_textures_per_shader_stage fatal (
  compareLimit "max_uniform_buffers_per_shader_stage" .Less
    self.max_uniform_buffers_per_shader_stage
    allowed.max_uniform_buffers_per_shader_stage fatal (
  compareLimit "max_uniform_buffer_binding_size" .Less
    self.max_uniform_buffer_binding_size allowed.max_uniform_buffer_binding_size fatal (
  compareLimit "max_storage_buffer_binding_size" .Less
    self.max_storage_buffer_binding_size allowed.max_storage_buffer_binding_size fatal (
  compareLimit "max_vertex_buffers" .Less
    self.max_vertex_buffers allowed.max_vertex_buffers fatal (
  compareLimit "max_buffer_size" .Less
    self.max_buffer_size allowed.max_buffer_size fatal (
  compareLimit "max_vertex_attributes" .Less
    self.max_vertex_attributes allowed.max_vertex_attributes fatal (
  compareLimit "max_vertex_buffer_array_stride" .Less
    self.max_vertex_buffer_array_stride allowed.max_vertex_buffer_array_stride fatal (
  compareLimit "min_uniform_buffer_offset_alignment" .Greater
    self.min_uniform_buffer_offset_alignment
    allowed.min_uniform_buffer_offset_alignment fatal (
  compareLimit "min_storage_buffer_offset_alignment" .Greater
    self.min_storage_buffer_offset_alignment
    allowed.min_storage_buffer_offset_alignment fatal (
  compareLimit "max_inter_stage_shader_components" .Less
    self.max_inter_stage_shader_components
    allowed.max_inter_stage_shader_components fatal (
  compareLimit "max_color_attachments" .Less
    self.max_color_attachments allowed.max_color_attachments fatal (
  compareLimit "max_color_attachment_bytes_per_sample" .Less
    self.max_color_attachment_bytes_per_sample
    allowed.max_color_attachment_bytes_per_sample fatal (
  compareLimit "max_compute_workgroup_storage_size" .Less
    self.max_compute_workgroup_storage_size
    allowed.max_compute_workgroup_storage_size fatal (
  compareLimit "max_compute_invocations_per_workgroup" .Less
    self.max_compute_invocations_per_workgroup
    allowed.max_compute_invocations_per_workgroup fatal (
  compareLimit "max_compute_workgroup_size_x" .Less
    self.max_compute_workgroup_size_x allowed.max_compute_workgroup_size_x fatal (
  compareLimit "max_compute_workgroup_size_y" .Less
    self.max_compute_workgroup_size_y allowed.max_compute_workgroup_size_y fatal (
  compareLimit "max_compute_workgroup_size_z" .Less
    self.max_compute_workgroup_size_z allowed.max_compute_workgroup_size_z fatal (
  compareLimit "max_compute_workgroups_per_dimension" .Less
    self.max_compute_workgroups_per_dimension
    allowed.max_compute_workgroups_per_dimension fatal (
  if 0 < self.min_subgroup_size ∧ 0 < self.max_subgroup_size then
    compareLimit "min_subgroup_size" .Greater
      self.min_subgroup_size allowed.min_subgroup_size fatal (
    compareLimit "max_subgroup_size" .Less
      self.max_subgroup_size allowed.max_subgroup_size fatal tail)
  else tail))))))))))))))))))))))))))))))

/-- `Limits::check_limits(allowed)`: fatal mode reduced to a boolean. -/
def check_limits (self allowed : Limits) : Bool :=
  (self.check_limits_with_fail_fn allowed true).isEmpty

end Limits

/-- The two derived flag writes of `guaranteed_format_features` land on bits
that are absent from every base flag value of the table (`0`, `4` or `36`),
so each `contains` query reads back exactly the boolean that was written. -/
theorem setFlagsAux (c : Nat) (hc : c = 0 ∨ c = 4 ∨ c = 36) (b1 b2 : Bool) :
    TextureFormatFeatureFlags.contains
      (TextureFormatFeatureFlags.set
        (TextureFormatFeatureFlags.set c TextureFormatFeatureFlags.FILTERABLE b1)
        TextureFormatFeatureFlags.BLENDABLE b2)
      TextureFormatFeatureFlags.FILTERABLE = b1 ∧
    TextureFormatFeatureFlags.contains
      (TextureFormatFeatureFlags.set
        (TextureFormatFeatureFlags.set c TextureFormatFeatureFlags.FILTERABLE b1)
        TextureFormatFeatureFlags.BLENDABLE b2)
      TextureFormatFeatureFlags.BLENDABLE = b2 := by
  rcases hc with rfl | rfl | rfl <;> cases b1 <;> cases b2 <;> exact ⟨rfl, rfl⟩

/-- Characterization of the two derived flag bits of
`guaranteed_format_features`: `FILTERABLE` reads back the classification made
with the supplied capability set, `BLENDABLE` the one made without any. -/
theorem gff_flags_spec (f : TextureFormat) (caps : Nat) :
    TextureFormatFeatureFlags.contains (f.guaranteed_format_features caps).flags
      TextureFormatFeatureFlags.FILTERABLE
      = (f.sample_type none (some caps) == some (TextureSampleType.Float true)) ∧
    TextureFormatFeatureFlags.contains (f.guaranteed_format_features caps).flags
      TextureFormatFeatureFlags.BLENDABLE
      = (f.sample_type none none == some (TextureSampleType.Float true)) := by
  cases f <;>
    (simp only [TextureFormat.guaranteed_format_features]
     refine setFlagsAux _ ?_ _ _
     decide)

/-- Classification without a capability set can only be `Float{filterable:true}`
when classification with any capability set is as well. -/
theorem sample_type_none_mono (f : TextureFormat) (caps : Nat)
    (h : (f.sample_type none none == some (TextureSampleType.Float true)) = true) :
    (f.sample_type none (some caps) == some (TextureSampleType.Float true)) = true := by
  cases f <;> first
    | exact h
    | exact absurd h (by decide)

/-- C1: for every format and capability set, `guaranteed_format_features` sets
`FILTERABLE` iff `sample_type(f, None, Some(caps))` is `Float{filterable:true}`
and sets `BLENDABLE` iff `sample_type(f, None, None)` is
`Float{filterable:true}`; the `R32Float` conjuncts exhibit the asymmetry:
capability-gated filterability does not imply blendability. -/
theorem claim_C1 :
    (∀ (f : TextureFormat) (caps : Nat),
      TextureFormatFeatureFlags.contains (f.guaranteed_format_features caps).flags
        TextureFormatFeatureFlags.FILTERABLE
        = (f.sample_type none (some caps) == some (TextureSampleType.Float true)) ∧
      TextureFormatFeatureFlags.contains (f.guaranteed_format_features caps).flags
        TextureFormatFeatureFlags.BLENDABLE
        = (f.sample_type none none == some (TextureSampleType.Float true))) ∧
    TextureFormatFeatureFlags.contains
      (TextureFormat.R32Float.guaranteed_format_features
        Features.FLOAT32_FILTERABLE).flags
      TextureFormatFeatureFlags.FILTERABLE = true ∧
    TextureFormatFeatureFlags.contains
      (TextureFormat.R32Float.guaranteed_format_features
        Features.FLOAT32_FILTERABLE).flags
      TextureFormatFeatureFlags.BLENDABLE = false :=
  ⟨gff_flags_spec, rfl, rfl⟩

/-- C9: whenever the flags returned by `guaranteed_format_features` contain
`BLENDABLE` they also contain `FILTERABLE`. -/
theorem claim_C9 (f : TextureFormat) (caps : Nat)
    (h : TextureFormatFeatureFlags.contains (f.guaranteed_format_features caps).flags
      TextureFormatFeatureFlags.BLENDABLE = true) :
    TextureFormatFeatureFlags.contains (f.guaranteed_format_features caps).flags
      TextureFormatFeatureFlags.FILTERABLE = true := by
  have spec := gff_flags_spec f caps
  rw [spec.2] at h
  rw [spec.1]
  exact sample_type_none_mono f caps h

/-- C9 witness: `Rgba8Unorm` with the empty capability set is blendable, and
the theorem applied there yields filterability. -/
theorem claim_C9_witness :
    TextureFormatFeatureFlags.contains
      (TextureFormat.Rgba8Unorm.guaranteed_format_features 0).flags
      TextureFormatFeatureFlags.BLENDABLE = true ∧
    TextureFormatFeatureFlags.contains
      (TextureFormat.Rgba8Unorm.guaranteed_format_features 0).flags
      TextureFormatFeatureFlags.FILTERABLE = true :=
  ⟨rfl, claim_C9 TextureFormat.Rgba8Unorm 0 rfl⟩

/-- C5: every combined depth-stencil format requires an aspect in
`sample_type`: depth aspect yields `Depth`, stencil aspect yields `Uint`, and
any other aspect argument (including none and `All`) yields no value,
independently of the capability argument. -/
theorem claim_C5 (f : TextureFormat)
    (h : f.is_combined_depth_stencil_format = true)
    (a : Option TextureAspect) (feats : Option Nat) :
    f.sample_type a feats =
      match a with
      | some .DepthOnly => some TextureSampleType.Depth
      | some .StencilOnly => some TextureSampleType.Uint
      | _ => none := by
  cases f <;> first
    | exact Bool.noConfusion h
    | (rcases a with _ | asp
       · rfl
       · cases asp <;> rfl)

/-- C5 witness: `Depth32FloatStencil8` with no aspect classifies to nothing
and with the depth aspect classifies to `Depth`. -/
theorem claim_C5_witness :
    TextureFormat.Depth32FloatStencil8.is_combined_depth_stencil_format = true ∧
    TextureFormat.Depth32FloatStencil8.sample_type none none = none ∧
    TextureFormat.Depth32FloatStencil8.sample_type (some .DepthOnly) none
      = some TextureSampleType.Depth :=
  ⟨rfl, claim_C5 TextureFormat.Depth32FloatStencil8 rfl none none,
    claim_C5 TextureFormat.Depth32FloatStencil8 rfl (some .DepthOnly) none⟩

/-- C10: for a format that is neither combined depth-stencil nor
multi-planar, `sample_type` returns a value for every aspect argument, and
the aspect argument is ignored. -/
theorem claim_C10 (f : TextureFormat) (a : Option TextureAspect) (feats : Option Nat)
    (h1 : f.is_combined_depth_stencil_format = false)
    (h2 : f.is_multi_planar_format = false) :
    (f.sample_type a feats).isSome = true ∧
    f.sample_type a feats = f.sample_type none feats := by
  cases f <;> first
    | exact ⟨rfl, rfl⟩
    | exact absurd h1 (by decide)
    | exact absurd h2 (by decide)

/-- C10 witness: a color format queried with an inapplicable stencil aspect
still classifies, identically to the aspect-free query. -/
theorem claim_C10_witness :
    TextureFormat.R8Unorm.is_combined_depth_stencil_format = false ∧
    TextureFormat.R8Unorm.is_multi_planar_format = false ∧
    ((TextureFormat.R8Unorm.sample_type (some .StencilOnly) none).isSome = true ∧
      TextureFormat.R8Unorm.sample_type (some .StencilOnly) none
        = TextureFormat.R8Unorm.sample_type none none) :=
  ⟨rfl, rfl, claim_C10 TextureFormat.R8Unorm (some .StencilOnly) none rfl rfl⟩

/-- Claim C3's first disjunct as worded: the format belongs to the
"at least N bits" depth family, the depth formats whose depth component has
no fixed byte size. -/
def depthAtLeastFamily (f : TextureFormat) : Bool :=
  match f with
  | .Depth24Plus | .Depth24PlusStencil8 => true
  | _ => false

/-- An aspect that addresses a concrete copy target of a combined
depth-stencil or multi-planar format: depth or stencil for the former, one of
the two planes for `NV12`. -/
def copyAspectApplies (f : TextureFormat) (a : TextureAspect) : Bool :=
  match f, a with
  | .Depth24PlusStencil8, .DepthOnly | .Depth24PlusStencil8, .StencilOnly => true
  | .Depth32FloatStencil8, .DepthOnly | .Depth32FloatStencil8, .StencilOnly => true
  | .NV12, .Plane0 | .NV12, .Plane1 => true
  | _, _ => false

/-- No aspect, or an aspect inapplicable to the format, was given. -/
def aspectMissingOrInapplicable (f : TextureFormat) (a : Option TextureAspect) : Bool :=
  match a with
  | none => true
  | some asp => !(copyAspectApplies f asp)

/-- Claim C3's None-condition exactly as stated: the format is in the
no-fixed-size depth family, or it is combined depth-stencil / multi-planar
and no (or an inapplicable) aspect was given. -/
def blockCopySizeNoneClaim (f : TextureFormat) (a : Option TextureAspect) : Bool :=
  depthAtLeastFamily f ||
  ((f.is_combined_depth_stencil_format || f.is_multi_planar_format) &&
    aspectMissingOrInapplicable f a)

/-- C3 counterexample: `Depth24PlusStencil8` queried with the stencil aspect
is in the claim's None-condition (the format is in the at-least-24-bits depth
family), yet `block_copy_size` returns one byte per block. -/
theorem claim_C3_counterexample :
    blockCopySizeNoneClaim TextureFormat.Depth24PlusStencil8 (some .StencilOnly) = true ∧
    TextureFormat.Depth24PlusStencil8.block_copy_size (some .StencilOnly) = some 1 :=
  ⟨rfl, rfl⟩

/-- C3 amended None-condition: `Depth24Plus` with any aspect, the depth
aspect of `Depth24PlusStencil8`, or a combined depth-stencil / multi-planar
format given no aspect or an inapplicable one. -/
def blockCopySizeNoneAmended (f : TextureFormat) (a : Option TextureAspect) : Bool :=
  (match f with
   | .Depth24Plus => true
   | _ => false) ||
  (match f, a with
   | .Depth24PlusStencil8, some .DepthOnly => true
   | _, _ => false) ||
  ((f.is_combined_depth_stencil_format || f.is_multi_planar_format) &&
    aspectMissingOrInapplicable f a)

/-- C3 (amended): `block_copy_size` returns no value exactly on the amended
None-condition, and a byte count on every other input. -/
theorem claim_C3 (f : TextureFormat) (a : Option TextureAspect) :
    (f.block_copy_size a).isNone = blockCopySizeNoneAmended f a := by
  cases f <;> rcases a with _ | asp <;> (try cases asp) <;> rfl

/-- C4 counterexample: a plain depth format queried with the depth aspect
does not resolve to `None` (it resolves to itself), contradicting the
claim's "every other combination resolves to None". -/
theorem claim_C4_counterexample :
    TextureFormat.Depth32Float.aspect_specific_format .DepthOnly ≠ none :=
  fun h => Option.noConfusion h

/-- C4 amended resolution table, following the amended claim wording: the
combined depth-stencil rules, the `NV12` plane rules, each single-aspect
depth or stencil format resolving to itself under its own aspect, `All` on
any non-multi-planar format resolving to the format itself, and `None`
everywhere else. -/
def aspectSpecificFormatSpec (f : TextureFormat) (a : TextureAspect) :
    Option TextureFormat :=
  match f, a with
  | .Depth24PlusStencil8, .DepthOnly => some .Depth24Plus
  | .Depth32FloatStencil8, .DepthOnly => some .Depth32Float
  | .Depth24PlusStencil8, .StencilOnly => some .Stencil8
  | .Depth32FloatStencil8, .StencilOnly => some .Stencil8
  | .NV12, .Plane0 => some .R8Unorm
  | .NV12, .Plane1 => some .Rg8Unorm
  | .Stencil8, .StencilOnly => some .Stencil8
  | .Depth16Unorm, .DepthOnly => some .Depth16Unorm
  | .Depth24Plus, .DepthOnly => some .Depth24Plus
  | .Depth32Float, .DepthOnly => some .Depth32Float
  | .NV12, _ => none
  | g, .All => some g
  | _, _ => none

/-- C4 (amended): `aspect_specific_format` agrees with the amended
resolution table on every format and aspect. -/
theorem claim_C4 (f : TextureFormat) (a : TextureAspect) :
    f.aspect_specific_format a = aspectSpecificFormatSpec f a := by
  cases f <;> cases a <;> rfl

/-- C7: the string codec round-trips on every format variant, the ASTC
family included, and the ASTC family serializes in the
`astc-{block}-{channel}` shape. -/
theorem claim_C7 :
    (∀ f : TextureFormat,
      TextureFormat.deserialize (TextureFormat.serialize f) = some f) ∧
    TextureFormat.serialize (.Astc .B8x5 .UnormSrgb) = "astc-8x5-unorm-srgb" := by
  refine ⟨fun f => ?_, rfl⟩
  cases f
  case Astc b c => cases b <;> cases c <;> rfl
  all_goals rfl

/-- C8 counterexample: the ASTC family does not have exactly 13 named block
shapes. -/
theorem claim_C8_counterexample : Fintype.card AstcBlock ≠ 13 := by decide

/-- The (width, height) pair named by each ASTC block shape token. -/
def AstcBlock.namedDimensions (b : AstcBlock) : Nat × Nat :=
  match b with
  | .B4x4 => (4, 4)
  | .B5x4 => (5, 4)
  | .B5x5 => (5, 5)
  | .B6x5 => (6, 5)
  | .B6x6 => (6, 6)
  | .B8x5 => (8, 5)
  | .B8x6 => (8, 6)
  | .B8x8 => (8, 8)
  | .B10x5 => (10, 5)
  | .B10x6 => (10, 6)
  | .B10x8 => (10, 8)
  | .B10x10 => (10, 10)
  | .B12x10 => (12, 10)
  | .B12x12 => (12, 12)

/-- C8 (amended): the ASTC family has exactly 14 named block shapes, from
4x4 to 12x12, and `block_dimensions` returns the (width, height) named by
the chosen shape for every parameterization. -/
theorem claim_C8 :
    Fintype.card AstcBlock = 14 ∧
    (∀ (b : AstcBlock) (c : AstcChannel),
      (TextureFormat.Astc b c).block_dimensions = b.namedDimensions) := by
  refine ⟨by decide, fun b c => ?_⟩
  cases b <;> rfl

/-- A `Less`-direction comparison passes exactly when requested is at most
allowed. -/
theorem cmpPasses_Less (req alw : Nat) :
    cmpPasses .Less req alw = decide (req ≤ alw) := by
  unfold cmpPasses
  rcases Nat.lt_trichotomy req alw with h | h | h
  · rw [Nat.compare_eq_lt.mpr h]
    exact (decide_eq_true (Nat.le_of_lt h)).symm
  · subst h
    rw [Nat.compare_eq_eq.mpr rfl]
    exact (decide_eq_true (Nat.le_refl req)).symm
  · rw [Nat.compare_eq_gt.mpr h]
    exact (decide_eq_false (Nat.not_le.mpr h)).symm

/-- A `Greater`-direction comparison passes exactly when requested is at
least allowed. -/
theorem cmpPasses_Greater (req alw : Nat) :
    cmpPasses .Greater req alw = decide (alw ≤ req) := by
  unfold cmpPasses
  rcases Nat.lt_trichotomy req alw with h | h | h
  · rw [Nat.compare_eq_lt.mpr h]
    exact (decide_eq_false (Nat.not_le.mpr h)).symm
  · subst h
    rw [Nat.compare_eq_eq.mpr rfl]
    exact (decide_eq_true (Nat.le_refl req)).symm
  · rw [Nat.compare_eq_gt.mpr h]
    exact (decide_eq_true (Nat.le_of_lt h)).symm

/-- The report list of one comparison step is empty exactly when the step
passes and the remaining report list is empty. -/
theorem compareLimit_isEmpty (n : String) (d : LimitOrd) (req alw : Nat)
    (fatal : Bool) (rest : List (String × Nat × Nat)) :
    (compareLimit n d req alw fatal rest).isEmpty
      = (cmpPasses d req alw && rest.isEmpty) := by
  unfold compareLimit
  cases hp : cmpPasses d req alw <;> simp [hp]

/-- The field-by-field directional compatibility conjunction of the spec:
most fields pass when requested is at most allowed, the two alignment fields
and the subgroup minimum pass when requested is at least allowed, and the
subgroup pair only takes part when both requested values are non-zero. -/
def limitsCompatSpec (r a : Limits) : Bool :=
  decide (r.max_texture_dimension_1d ≤ a.max_texture_dimension_1d) &&
  decide (r.max_texture_dimension_2d ≤ a.max_texture_dimension_2d) &&
  decide (r.max_texture_dimension_3d ≤ a.max_texture_dimension_3d) &&
  decide (r.max_texture_array_layers ≤ a.max_texture_array_layers) &&
  decide (r.max_bind_groups ≤ a.max_bind_groups) &&
  decide (r.max_bindings_per_bind_group ≤ a.max_bindings_per_bind_group) &&
  decide (r.max_dynamic_uniform_buffers_per_pipeline_layout
    ≤ a.max_dynamic_uniform_buffers_per_pipeline_layout) &&
  decide (r.max_dynamic_storage_buffers_per_pipeline_layout
    ≤ a.max_dynamic_storage_buffers_per_pipeline_layout) &&
  decide (r.max_sampled_textures_per_shader_stage
    ≤ a.max_sampled_textures_per_shader_stage) &&
  decide (r.max_samplers_per_shader_stage ≤ a.max_samplers_per_shader_stage) &&
  decide (r.max_storage_buffers_per_shader_stage
    ≤ a.max_storage_buffers_per_shader_stage) &&
  decide (r.max_storage_textures_per_shader_stage
    ≤ a.max_storage_textures_per_shader_stage) &&
  decide (r.max_uniform_buffers_per_shader_stage
    ≤ a.max_uniform_buffers_per_shader_stage) &&
  decide (r.max_uniform_buffer_binding_size ≤ a.max_uniform_buffer_binding_size) &&
  decide (r.max_storage_buffer_binding_size ≤ a.max_storage_buffer_binding_size) &&
  decide (r.max_vertex_buffers ≤ a.max_vertex_buffers) &&
  decide (r.max_buffer_size ≤ a.max_buffer_size) &&
  decide (r.max_vertex_attributes ≤ a.max_vertex_attributes) &&
  decide (r.max_vertex_buffer_array_stride ≤ a.max_vertex_buffer_array_stride) &&
  decide (a.min_uniform_buffer_offset_alignment
    ≤ r.min_uniform_buffer_offset_alignment) &&
  decide (a.min_storage_buffer_offset_alignment
    ≤ r.min_storage_buffer_offset_alignment) &&
  decide (r.max_inter_stage_shader_components
    ≤ a.max_inter_stage_shader_components) &&
  decide (r.max_color_attachments ≤ a.max_color_attachments) &&
  decide (r.max_color_attachment_bytes_per_sample
    ≤ a.max_color_attachment_bytes_per_sample) &&
  decide (r.max_compute_workgroup_storage_size
    ≤ a.max_compute_workgroup_storage_size) &&
  decide (r.max_compute_invocations_per_workgroup
    ≤ a.max_compute_invocations_per_workgroup) &&
  decide (r.max_compute_workgroup_size_x ≤ a.max_compute_workgroup_size_x) &&
  decide (r.max_compute_workgroup_size_y ≤ a.max_compute_workgroup_size_y) &&
  decide (r.max_compute_workgroup_size_z ≤ a.max_compute_workgroup_size_z) &&
  decide (r.max_compute_workgroups_per_dimension
    ≤ a.max_compute_workgroups_per_dimension) &&
  (if 0 < r.min_subgroup_size ∧ 0 < r.max_subgroup_size then
    decide (a.min_subgroup_size ≤ r.min_subgroup_size) &&
    decide (r.max_subgroup_size ≤ a.max_subgroup_size)
  else true) &&
  decide (r.max_push_constant_size ≤ a.max_push_constant_size) &&
  decide (r.max_non_sampler_bindings ≤ a.max_non_sampler_bindings)

/-- `check_limits_with_fail_fn` reports nothing, in either mode, exactly when
the directional field-by-field conjunction holds. -/
theorem limits_isEmpty_spec (r a : Limits) (fatal : Bool) :
    (r.check_limits_with_fail_fn a fatal).isEmpty = limitsCompatSpec r a := by
  simp only [Limits.check_limits_with_fail_fn, limitsCompatSpec]
  by_cases hg : (0 < r.min_subgroup_size ∧ 0 < r.max_subgroup_size)
  · rw [if_pos hg, if_pos hg]
    simp only [compareLimit_isEmpty, cmpPasses_Less, cmpPasses_Greater,
      List.isEmpty_nil, Bool.and_true, Bool.and_assoc]
  · rw [if_neg hg, if_neg hg]
    simp only [compareLimit_isEmpty, cmpPasses_Less, cmpPasses_Greater,
      List.isEmpty_nil, Bool.and_true, Bool.true_and, Bool.and_assoc]

/-- C2: every limit field is checked in declared order with the
requested-at-most-allowed rule, except the two alignment fields and the
subgroup minimum, which pass when requested is at least allowed; in
particular a requested storage-offset alignment of 512 against an allowed
256 passes. -/
theorem claim_C2 :
    (∀ (r a : Limits) (fatal : Bool),
      (r.check_limits_with_fail_fn a fatal).isEmpty = limitsCompatSpec r a) ∧
    (∀ (r a : Limits), r.check_limits a = limitsCompatSpec r a) ∧
    Limits.check_limits
      { Limits.defaults with min_storage_buffer_offset_alignment := 512 }
      Limits.defaults = true :=
  ⟨limits_isEmpty_spec, fun r a => limits_isEmpty_spec r a true, rfl⟩

/-- Any element of the report list of one comparison step either carries the
step's field name or already belonged to the remaining report list. -/
theorem mem_compareLimit (e : String × Nat × Nat) (n : String) (d : LimitOrd)
    (req alw : Nat) (fatal : Bool) (rest : List (String × Nat × Nat))
    (he : e ∈ compareLimit n d req alw fatal rest) : e.1 = n ∨ e ∈ rest := by
  unfold compareLimit at he
  by_cases hp : cmpPasses d req alw = true
  · rw [if_pos hp] at he
    exact Or.inr he
  · rw [if_neg hp] at he
    rcases List.mem_cons.mp he with rfl | hmem
    · exact Or.inl rfl
    · cases fatal
      · exact Or.inr (by simpa using hmem)
      · simp at hmem

/-- When either requested subgroup bound is zero, the skipped subgroup pair
never shows up in the report list. -/
theorem subgroup_not_reported (r a : Limits) (fatal : Bool)
    (h : r.min_subgroup_size = 0 ∨ r.max_subgroup_size = 0) :
    ∀ e ∈ r.check_limits_with_fail_fn a fatal,
      e.1 ≠ "min_subgroup_size" ∧ e.1 ≠ "max_subgroup_size" := by
  intro e he
  have hg : ¬ (0 < r.min_subgroup_size ∧ 0 < r.max_subgroup_size) := by
    rintro ⟨h1, h2⟩
    rcases h with h | h <;> omega
  simp only [Limits.check_limits_with_fail_fn] at he
  rw [if_neg hg] at he
  rcases mem_compareLimit _ _ _ _ _ _ _ he with h1 | he
  · rw [h1]
    exact ⟨by decide, by decide⟩
  rcases mem_compareLimit _ _ _ _ _ _ _ he with h1 | he
  · rw [h1]
    exact ⟨by decide, by decide⟩
  rcases mem_compareLimit _ _ _ _ _ _ _ he with h1 | he
  · rw [h1]
    exact ⟨by decide, by decide⟩
  rcases mem_compareLimit _ _ _ _ _ _ _ he with h1 | he
  · rw [h1]
    exact ⟨by decide, by decide⟩
  rcases mem_compareLimit _ _ _ _ _ _ _ he with h1 | he
  · rw [h1]
    exact ⟨by decide, by decide⟩
  rcases mem_compareLimit _ _ _ _ _ _ _ he with h1 | he
  · rw [h1]
    exact ⟨by decide, by decide⟩
  rcases mem_compareLimit _ _ _ _ _ _ _ he with h1 | he
  · rw [h1]
    exact ⟨by decide, by decide⟩
  rcases mem_compareLimit _ _ _ _ _ _ _ he with h1 | he
  · rw [h1]
    exact ⟨by decide, by decide⟩
  rcases mem_compareLimit _ _ _ _ _ _ _ he with h1 | he
  · rw [h1]
    exact ⟨by decide, by decide⟩
  rcases mem_compareLimit _ _ _ _ _ _ _ he with h1 | he
  · rw [h1]
    exact ⟨by decide, by decide⟩
  rcases mem_compareLimit _ _ _ _ _ _ _ he with h1 | he
  · rw [h1]
    exact ⟨by decide, by decide⟩
  rcases mem_compareLimit _ _ _ _ _ _ _ he with h1 | he
  · rw [h1]
    exact ⟨by decide, by decide⟩
  rcases mem_compareLimit _ _ _ _ _ _ _ he with h1 | he
  · rw [h1]
    exact ⟨by decide, by decide⟩
  rcases mem_compareLimit _ _ _ _ _ _ _ he with h1 | he
  · rw [h1]
    exact ⟨by decide, by decide⟩
  rcases mem_compareLimit _ _ _ _ _ _ _ he with h1 | he
  · rw [h1]
    exact ⟨by decide, by decide⟩
  rcases mem_compareLimit _ _ _ _ _ _ _ he with h1 | he
  · rw [h1]
    exact ⟨by decide, by decide⟩
  rcases mem_compareLimit _ _ _ _ _ _ _ he with h1 | he
  · rw [h1]
    exact ⟨by decide, by decide⟩
  rcases mem_compareLimit _ _ _ _ _ _ _ he with h1 | he
  · rw [h1]
    exact ⟨by decide, by decide⟩
  rcases mem_compareLimit _ _ _ _ _ _ _ he with h1 | he
  · rw [h1]
    exact ⟨by decide, by decide⟩
  rcases mem_compareLimit _ _ _ _ _ _ _ he with h1 | he
  · rw [h1]
    exact ⟨by decide, by decide⟩
  rcases mem_compareLimit _ _ _ _ _ _ _ he with h1 | he
  · rw [h1]
    exact ⟨by decide, by decide⟩
  rcases mem_compareLimit _ _ _ _ _ _ _ he with h1 | he
  · rw [h1]
    exact ⟨by decide, by decide⟩
  rcases mem_compareLimit _ _ _ _ _ _ _ he with h1 | he
  · rw [h1]
    exact ⟨by decide, by decide⟩
  rcases mem_compareLimit _ _ _ _ _ _ _ he with h1 | he
  · rw [h1]
    exact ⟨by decide, by decide⟩
  rcases mem_compareLimit _ _ _ _ _ _ _ he with h1 | he
  · rw [h1]
    exact ⟨by decide, by decide⟩
  rcases mem_compareLimit _ _ _ _ _ _ _ he with h1 | he
  · rw [h1]
    exact ⟨by decide, by decide⟩
  rcases mem_compareLimit _ _ _ _ _ _ _ he with h1 | he
  · rw [h1]
    exact ⟨by decide, by decide⟩
  rcases mem_compareLimit _ _ _ _ _ _ _ he with h1 | he
  · rw [h1]
    exact ⟨by decide, by decide⟩
  rcases mem_compareLimit _ _ _ _ _ _ _ he with h1 | he
  · rw [h1]
    exact ⟨by decide, by decide⟩
  rcases mem_compareLimit _ _ _ _ _ _ _ he with h1 | he
  · rw [h1]
    exact ⟨by decide, by decide⟩
  rcases mem_compareLimit _ _ _ _ _ _ _ he with h1 | he
  · rw [h1]
    exact ⟨by decide, by decide⟩
  rcases mem_compareLimit _ _ _ _ _ _ _ he with h1 | he
  · rw [h1]
    exact ⟨by decide, by decide⟩
  exact absurd he (List.not_mem_nil e)

/-- C6: when either requested subgroup bound is zero the subgroup pair is
skipped: the outcome is unchanged by the allowed subgroup bounds, and no
subgroup field is ever reported. -/
theorem claim_C6 (r a : Limits) (fatal : Bool) (x y : Nat)
    (h : r.min_subgroup_size = 0 ∨ r.max_subgroup_size = 0) :
    r.check_limits_with_fail_fn
        { a with min_subgroup_size := x, max_subgroup_size := y } fatal
      = r.check_limits_with_fail_fn a fatal ∧
    (∀ e ∈ r.check_limits_with_fail_fn a fatal,
      e.1 ≠ "min_subgroup_size" ∧ e.1 ≠ "max_subgroup_size") := by
  have hg : ¬ (0 < r.min_subgroup_size ∧ 0 < r.max_subgroup_size) := by
    rintro ⟨h1, h2⟩
    rcases h with h | h <;> omega
  constructor
  · simp only [Limits.check_limits_with_fail_fn]
    rw [if_neg hg, if_neg hg]
  · exact subgroup_not_reported r a fatal h

/-- C6 witness: the default limits request zero subgroup bounds, so the check
against arbitrarily perturbed allowed subgroup bounds is unchanged. -/
theorem claim_C6_witness :
    Limits.defaults.min_subgroup_size = 0 ∧
    Limits.defaults.check_limits_with_fail_fn
        { Limits.defaults with min_subgroup_size := 17, max_subgroup_size := 3 } true
      = Limits.defaults.check_limits_with_fail_fn Limits.defaults true :=
  ⟨rfl, (claim_C6 Limits.defaults Limits.defaults true 17 3 (Or.inl rfl)).1⟩

example : TextureFormat.Depth32FloatStencil8.sample_type none none = none := rfl

example : TextureFormat.Depth32FloatStencil8.sample_type (some .DepthOnly) none
    = some .Depth := rfl

example : TextureFormat.R32Float.sample_type none (some Features.FLOAT32_FILTERABLE)
    = some (.Float true) := rfl

example : TextureFormat.R32Float.sample_type none none = some (.Float false) := rfl
